import Mathlib

/-!
Verification of the mods development server
(`src/tools/mods-dev-server/development-server.js`).

The file shallowly embeds the server's one piece of logic — the CSP/CORS
header middleware `cacheRedirect`, the manifest watcher
`readExternalResources` / `readExternalResourcesFromManifest`, and the
startup function `startServer` — and proves the specified properties about
those definitions.
-/

set_option autoImplicit false

/-- JSON values, as produced by `JSON.parse`.  `num` is modelled with `Int`
(the manifests at hand never need fractional numbers). -/
inductive Json where
  | null
  | bool (b : Bool)
  | num (n : Int)
  | str (s : String)
  | arr (elements : List Json)
  | obj (fields : List (String × Json))

/-- Property access `j.key` on a parsed JSON value: only objects yield a
value; on every other non-`null` value the access evaluates to `undefined`
(modelled as `none`).  Access on `null` throws and is handled separately by
the caller. -/
def Json.lookup (j : Json) (key : String) : Option Json :=
  match j with
  | .obj fields => (fields.find? (fun p => p.1 == key)).map (fun p => p.2)
  | _ => none

/-- JavaScript truthiness of a JSON value: `null`, `false`, `0` and the
empty string are falsy, everything else (including empty arrays and
objects) is truthy. -/
def Json.truthy : Json → Bool
  | .null => false
  | .bool b => b
  | .num n => n != 0
  | .str s => s != ""
  | .arr _ => true
  | .obj _ => true

/-- Iteration of a JSON value by the array spread operator: arrays yield
their elements, strings yield their characters, and every other value is
not iterable (the spread throws, modelled as `none`). -/
def Json.iterate : Json → Option (List Json)
  | .arr xs => some xs
  | .str s => some (s.toList.map (fun c => Json.str c.toString))
  | _ => none

mutual

/-- JavaScript `String(v)` conversion of a JSON value.  Arrays convert by
joining the converted elements with commas, with `null` elements becoming
the empty string; objects convert to the fixed tag string. -/
def Json.stringConv : Json → String
  | .null => "null"
  | .bool b => if b then "true" else "false"
  | .num n => toString n
  | .str s => s
  | .arr xs => Json.convElems xs
  | .obj _ => "[object Object]"

/-- Comma-joined `String` conversion of a list of array elements, as done
by `Array.prototype.join` with separator `","`; `null` elements convert to
the empty string. -/
def Json.convElems : List Json → String
  | [] => ""
  | [Json.null] => ""
  | [j] => Json.stringConv j
  | Json.null :: rest => "," ++ Json.convElems rest
  | j :: rest => Json.stringConv j ++ "," ++ Json.convElems rest

end

/-- Conversion applied by `Array.prototype.join` to a single element:
`null` becomes the empty string, every other value converts via
`String(v)`. -/
def Json.piece : Json → String
  | .null => ""
  | j => Json.stringConv j

/-- The process-wide mutable state of the development server: the list of
external resources declared in the manifest
(`declaredExternalResourcesInManifest`, a `string[]` in the source but
assigned raw parsed JSON by the watcher, hence modelled as `Json`) and the
set of observed cross-origin request origins (`allowedOrigins`, a JS `Set`,
modelled as an insertion-ordered duplicate-free list). -/
structure ServerState where
  declaredExternalResourcesInManifest : Json
  allowedOrigins : List String

/-- The state at process start: no declared resources, no observed
origins. -/
def initialState : ServerState := ⟨Json.arr [], []⟩

/-- Insertion into a JS `Set`: a no-op when the element is already present,
otherwise appended at the end (JS sets iterate in insertion order). -/
def setAdd (s : List String) (x : String) : List String :=
  if x ∈ s then s else s ++ [x]

/-- An incoming HTTP request, restricted to the fields the middleware
reads: the method and the `Origin` header (`none` when the header is
absent). -/
structure Request where
  method : String
  origin : Option String

/-- A response under construction: its headers, as a name/value list with
at most one entry per name. -/
structure Response where
  headers : List (String × String)

/-- Replacement of the value bound to `n` in a header list, appending a new
entry when `n` is not yet present (the behaviour of `res.setHeader`). -/
def updateAssoc : List (String × String) → String → String → List (String × String)
  | [], n, v => [(n, v)]
  | (k, w) :: rest, n, v =>
    if k == n then (n, v) :: rest else (k, w) :: updateAssoc rest n v

/-- The `res.setHeader(n, v)` operation. -/
def setHeader (res : Response) (n v : String) : Response :=
  ⟨updateAssoc res.headers n v⟩

/-- The value of header `n` on a response, `none` when unset. -/
def getHeader (res : Response) (n : String) : Option String :=
  (res.headers.find? (fun p => p.1 == n)).map (fun p => p.2)

/-- Space-separated join, as done by `Array.prototype.join` with separator
a single space. -/
def joinSp : List String → String
  | [] => ""
  | [x] => x
  | x :: xs => x ++ " " ++ joinSp xs

/-- The fixed directive part of the `content-security-policy` header value,
up to and including the space before the joined origin list. -/
def cspHead : String :=
  "sandbox allow-scripts; default-src \x27self\x27 \x27unsafe-eval\x27 \x27unsafe-inline\x27 blob: data: "

/-- The middleware `cacheRedirect(req, res, next)`.  The returned triple is
the state after the call, the response after the call, and whether the call
ran to completion and invoked `next` (`false` models the one way the body
can throw: spreading a non-iterable `declaredExternalResourcesInManifest`;
headers set before that point remain set). -/
def cacheRedirect (st : ServerState) (req : Request) (res : Response) :
    ServerState × Response × Bool :=
  let isCorsRequest : Bool := req.origin != none
  let requestFromOutsideSandbox : Bool := req.origin != some "null"
  let stRes :=
    if isCorsRequest && requestFromOutsideSandbox then
      ({ st with allowedOrigins := setAdd st.allowedOrigins (req.origin.getD "") },
       setHeader
         (setHeader res "Access-Control-Allow-Headers"
           "Origin, X-Requested-With, Content-Type, Accept")
         "Access-Control-Allow-Origin" "*")
    else (st, res)
  let st1 := stRes.1
  let res1 := setHeader stRes.2 "Cache-Control" "no-store"
  if req.method != "GET" then (st1, res1, true)
  else
    match Json.iterate st1.declaredExternalResourcesInManifest with
    | none => (st1, res1, false)
    | some elems =>
      let res2 := setHeader res1 "content-security-policy"
        (cspHead ++ joinSp (st1.allowedOrigins ++ elems.map Json.piece))
      let res3 := setHeader res2 "x-content-security-policy" "sandbox allow-scripts"
      (st1, res3, true)

/-- Outcome of one manifest read attempt, separating the two fallible steps
of `readExternalResources`: `readError` models `fs.readFileSync` throwing,
`parseError` models `JSON.parse` throwing on the content read, and `parsed`
carries the successfully parsed value. -/
inductive ReadOutcome where
  | readError
  | parseError
  | parsed (json : Json)

/-- The expression `json.externalResources || []` assigned to
`declaredExternalResourcesInManifest` on a successful parse of a non-`null`
value. -/
def extractExternalResources (json : Json) : Json :=
  match json.lookup "externalResources" with
  | some v => if v.truthy then v else Json.arr []
  | none => Json.arr []

/-- The body of `readExternalResources`: read the file (outside the
`try`), then parse and assign inside a `try` whose `catch` swallows the
error.  The returned flag is `true` exactly when an exception escaped the
function (a read failure); in that case the state is unchanged.  A parse
failure is swallowed and leaves the state unchanged.  A manifest parsing to
JSON `null` also leaves the state unchanged: the property access
`json.externalResources` throws a `TypeError` inside the `try` and is
swallowed by the same `catch`. -/
def readExternalResources (st : ServerState) : ReadOutcome → ServerState × Bool
  | .readError => (st, true)
  | .parseError => (st, false)
  | .parsed .null => (st, false)
  | .parsed json =>
    ({ st with declaredExternalResourcesInManifest := extractExternalResources json }, false)

/-- The manifest file name looked for in the root directory. -/
def manifestName : String := "mod-manifest.json"

/-- The startup half of `readExternalResourcesFromManifest`: list the root
directory; when a file named `mod-manifest.json` is found, perform the
initial read and then register the file watch (so a throwing initial read
prevents registration); otherwise log a warning and register nothing.
Returns `((watchRegistered, state), escaped)` where `escaped` is `true`
when the initial read threw out of the function. -/
def readExternalResourcesFromManifest (files : List String) (initialRead : ReadOutcome)
    (st : ServerState) : (Bool × ServerState) × Bool :=
  if files.contains manifestName then
    let r := readExternalResources st initialRead
    if r.2 then ((false, r.1), true) else ((true, r.1), false)
  else
    ((false, st), false)

/-- Delivery of a sequence of file-change events to the watch callback
`readExternalResources`, stopping at the first read that throws (an
uncaught exception in the callback). -/
def processEvents (st : ServerState) : List ReadOutcome → ServerState × Bool
  | [] => (st, false)
  | e :: rest =>
    let r := readExternalResources st e
    if r.2 then (r.1, true) else processEvents r.1 rest

/-- The watcher over the process lifetime: file-change events reach the
callback only when a watch was registered at startup. -/
def runWatcher (registered : Bool) (st : ServerState) (events : List ReadOutcome) :
    ServerState × Bool :=
  if registered then processEvents st events else (st, false)

/-- The caller-supplied partial configuration: `none` fields are absent
keys, so the spread `\x7b...defaultConfig, ...partialConfig\x7d` keeps the
default for them.  Restricted to the fields the verified code path
reads. -/
structure PartialConfig where
  port : Option Nat
  root : Option String

/-- The merged configuration: caller-supplied values take precedence over
the defaults `port = 8090`, `root = "./test/test-files/"`. -/
structure Config where
  port : Nat
  root : String

/-- The spread-merge of the default configuration with the caller's partial
configuration. -/
def mergeConfig (partialConfig : PartialConfig) : Config :=
  { port := partialConfig.port.getD 8090,
    root := partialConfig.root.getD "./test/test-files/" }

/-- The file-system facts `startServer` consults: `path.resolve`,
`fs.existsSync`, `fs.readdirSync`, and the outcome of the initial manifest
read. -/
structure Env where
  resolve : String → String
  existsSync : String → Bool
  readdirSync : String → List String
  initialRead : ReadOutcome

/-- The two ways startup can abort: the thrown template string when the
resolved root directory does not exist, and a propagated read failure from
the initial manifest read. -/
inductive StartupError where
  | rootMissing (path : String)
  | readFailure

/-- The `startServer` function: merge the configuration, resolve the root,
throw when the root does not exist, read the manifest, then start the
underlying server.  An `ok` result carries the state after the initial
manifest read, whether a watch was registered, and the port bound by
`devServer.start`; an `error` result means startup aborted before any port
was bound and (for `rootMissing`) before the manifest was read. -/
def startServer (env : Env) (partialConfig : PartialConfig) (st : ServerState) :
    Except StartupError (ServerState × Bool × Nat) :=
  let config := mergeConfig partialConfig
  let rootDirectoryAbsolutePath := env.resolve config.root
  if env.existsSync rootDirectoryAbsolutePath = false then
    Except.error (StartupError.rootMissing rootDirectoryAbsolutePath)
  else
    match readExternalResourcesFromManifest (env.readdirSync rootDirectoryAbsolutePath)
        env.initialRead st with
    | ((registered, st1), escaped) =>
      if escaped then Except.error StartupError.readFailure
      else Except.ok (st1, registered, config.port)

/-! Helper lemmas about headers, set insertion and joining. -/

theorem find_updateAssoc_same (l : List (String × String)) (n v : String) :
    ((updateAssoc l n v).find? (fun p => p.1 == n)) = some (n, v) := by
  induction l with
  | nil => simp [updateAssoc, List.find?]
  | cons hd rest ih =>
    obtain ⟨k, w⟩ := hd
    cases hk : (k == n) <;> simp [updateAssoc, hk, List.find?, ih]

theorem find_updateAssoc_other (l : List (String × String)) (n v m : String) (h : m ≠ n) :
    ((updateAssoc l n v).find? (fun p => p.1 == m)) = (l.find? (fun p => p.1 == m)) := by
  have hnm : (n == m) = false := beq_eq_false_iff_ne.mpr (Ne.symm h)
  induction l with
  | nil => simp [updateAssoc, List.find?, hnm]
  | cons hd rest ih =>
    obtain ⟨k, w⟩ := hd
    cases hk : (k == n) with
    | false => cases hkm : (k == m) <;> simp [updateAssoc, hk, hkm, List.find?, ih]
    | true =>
      have hk' : k = n := beq_iff_eq.mp hk
      subst hk'
      simp [updateAssoc, List.find?, hnm]

theorem getHeader_setHeader_same (res : Response) (n v : String) :
    getHeader (setHeader res n v) n = some v := by
  simp [getHeader, setHeader, find_updateAssoc_same]

theorem getHeader_setHeader_other (res : Response) (n v m : String) (h : m ≠ n) :
    getHeader (setHeader res n v) m = getHeader res m := by
  simp [getHeader, setHeader, find_updateAssoc_other _ _ _ _ h]

theorem mem_setAdd_self (s : List String) (x : String) : x ∈ setAdd s x := by
  by_cases h : x ∈ s <;> simp [setAdd, h]

theorem joinSp_mem_split (s : String) (xs : List String) (h : s ∈ xs) :
    ∃ pre post, joinSp xs = (pre ++ s) ++ post := by
  induction xs with
  | nil => cases h
  | cons x rest ih =>
    cases rest with
    | nil =>
      have hx : s = x := by simpa using h
      subst hx
      exact ⟨"", "", by simp [joinSp]⟩
    | cons y t =>
      rcases List.mem_cons.mp h with hx | hmem
      · subst hx
        exact ⟨"", " " ++ joinSp (y :: t), by simp [joinSp, String.append_assoc]⟩
      · obtain ⟨pre, post, hp⟩ := ih hmem
        exact ⟨x ++ " " ++ pre, post, by simp [joinSp, hp, String.append_assoc]⟩

theorem map_piece_str (strs : List String) :
    (strs.map Json.str).map Json.piece = strs := by
  induction strs with
  | nil => rfl
  | cons x xs ih => simp [Json.piece, Json.stringConv, ih]

theorem getHeader_setHeader (res : Response) (n v m : String) :
    getHeader (setHeader res n v) m = if m = n then some v else getHeader res m := by
  by_cases h : m = n
  · subst h; simp [getHeader_setHeader_same]
  · simp [h, getHeader_setHeader_other _ _ _ _ h]

theorem piece_str (s : String) : Json.piece (Json.str s) = s := rfl

theorem map_piece_comp_str (strs : List String) :
    List.map (Json.piece ∘ Json.str) strs = strs := by
  induction strs with
  | nil => rfl
  | cons x xs ih => simp only [List.map_cons, Function.comp_apply, piece_str, ih]

theorem cacheRedirect_GET_csp (st : ServerState) (req : Request) (res : Response)
    (strs : List String) (hm : req.method = "GET")
    (hd : st.declaredExternalResourcesInManifest = Json.arr (strs.map Json.str)) :
    (cacheRedirect st req res).2.2 = true ∧
    getHeader (cacheRedirect st req res).2.1 "content-security-policy"
      = some (cspHead ++ joinSp ((cacheRedirect st req res).1.allowedOrigins ++ strs)) ∧
    getHeader (cacheRedirect st req res).2.1 "x-content-security-policy"
      = some "sandbox allow-scripts" := by
  unfold cacheRedirect
  cases hc : ((req.origin != none) && (req.origin != some "null")) <;>
    simp [hc, hm, hd, Json.iterate, map_piece_comp_str, getHeader_setHeader]

/-! Claim theorems. -/

/-- C1: for every GET request, the middleware runs to completion and sets
the `content-security-policy` response header to exactly the fixed
directive part `cspHead` followed by the elements of the allowed-origin set
and then the declared external resources, in that order, joined by single
spaces, and also sets `x-content-security-policy` to
`sandbox allow-scripts`. -/
theorem C1_get_csp_headers (st : ServerState) (req : Request) (res : Response)
    (strs : List String) (hm : req.method = "GET")
    (hd : st.declaredExternalResourcesInManifest = Json.arr (strs.map Json.str)) :
    (cacheRedirect st req res).2.2 = true ∧
    getHeader (cacheRedirect st req res).2.1 "content-security-policy"
      = some (cspHead ++ joinSp ((cacheRedirect st req res).1.allowedOrigins ++ strs)) ∧
    getHeader (cacheRedirect st req res).2.1 "x-content-security-policy"
      = some "sandbox allow-scripts" :=
  cacheRedirect_GET_csp st req res strs hm hd

/-- Witness for C1: a concrete GET request against a state with one
declared external resource and one previously observed origin. -/
theorem C1_get_csp_headers_witness :
    (cacheRedirect ⟨Json.arr [Json.str "https://example.com"], ["http://localhost:8090"]⟩
        ⟨"GET", none⟩ ⟨[]⟩).2.2 = true ∧
    getHeader (cacheRedirect ⟨Json.arr [Json.str "https://example.com"], ["http://localhost:8090"]⟩
        ⟨"GET", none⟩ ⟨[]⟩).2.1 "content-security-policy"
      = some (cspHead ++ joinSp
          ((cacheRedirect ⟨Json.arr [Json.str "https://example.com"], ["http://localhost:8090"]⟩
              ⟨"GET", none⟩ ⟨[]⟩).1.allowedOrigins ++ ["https://example.com"])) ∧
    getHeader (cacheRedirect ⟨Json.arr [Json.str "https://example.com"], ["http://localhost:8090"]⟩
        ⟨"GET", none⟩ ⟨[]⟩).2.1 "x-content-security-policy"
      = some "sandbox allow-scripts" :=
  C1_get_csp_headers _ _ _ ["https://example.com"] rfl rfl

/-- C3: for every request whose `Origin` header equals the literal string
`"null"`, the middleware leaves the allowed-origin set unchanged and does
not set the `Access-Control-Allow-Origin` response header. -/
theorem C3_sandboxed_origin_ignored (st : ServerState) (req : Request) (res : Response)
    (h : req.origin = some "null") :
    (cacheRedirect st req res).1.allowedOrigins = st.allowedOrigins ∧
    getHeader (cacheRedirect st req res).2.1 "Access-Control-Allow-Origin"
      = getHeader res "Access-Control-Allow-Origin" := by
  have hc : ((req.origin != none) && (req.origin != some "null")) = false := by simp [h]
  unfold cacheRedirect
  cases hI : Json.iterate st.declaredExternalResourcesInManifest <;>
  cases hM : (req.method != "GET") <;>
    simp [hc, hM, hI, getHeader_setHeader]

/-- Witness for C3: a concrete GET request from a sandboxed iframe
(`Origin: null`) against a state with one observed origin. -/
theorem C3_sandboxed_origin_ignored_witness :
    (cacheRedirect ⟨Json.arr [], ["https://seen.example"]⟩
        ⟨"GET", some "null"⟩ ⟨[]⟩).1.allowedOrigins = ["https://seen.example"] ∧
    getHeader (cacheRedirect ⟨Json.arr [], ["https://seen.example"]⟩
        ⟨"GET", some "null"⟩ ⟨[]⟩).2.1 "Access-Control-Allow-Origin"
      = getHeader ⟨[]⟩ "Access-Control-Allow-Origin" :=
  C3_sandboxed_origin_ignored ⟨Json.arr [], ["https://seen.example"]⟩
    ⟨"GET", some "null"⟩ ⟨[]⟩ rfl

/-- C8: for every request whose method is not GET, the middleware invokes
the next handler and stops: neither `content-security-policy` nor
`x-content-security-policy` is set on the response. -/
theorem C8_non_get_no_csp (st : ServerState) (req : Request) (res : Response)
    (h : req.method ≠ "GET") :
    (cacheRedirect st req res).2.2 = true ∧
    getHeader (cacheRedirect st req res).2.1 "content-security-policy"
      = getHeader res "content-security-policy" ∧
    getHeader (cacheRedirect st req res).2.1 "x-content-security-policy"
      = getHeader res "x-content-security-policy" := by
  have hM : (req.method != "GET") = true := by simp [h]
  unfold cacheRedirect
  cases hc : ((req.origin != none) && (req.origin != some "null")) <;>
    simp [hc, hM, getHeader_setHeader]

/-- Witness for C8: a concrete POST request with a cross-origin header. -/
theorem C8_non_get_no_csp_witness :
    (cacheRedirect initialState ⟨"POST", some "https://tool.example"⟩ ⟨[]⟩).2.2 = true ∧
    getHeader (cacheRedirect initialState ⟨"POST", some "https://tool.example"⟩ ⟨[]⟩).2.1
        "content-security-policy"
      = getHeader ⟨[]⟩ "content-security-policy" ∧
    getHeader (cacheRedirect initialState ⟨"POST", some "https://tool.example"⟩ ⟨[]⟩).2.1
        "x-content-security-policy"
      = getHeader ⟨[]⟩ "x-content-security-policy" :=
  C8_non_get_no_csp initialState ⟨"POST", some "https://tool.example"⟩ ⟨[]⟩ (by decide)

/-- C10: only `JSON.parse` errors are swallowed by `readExternalResources`;
a failure of the file read itself escapes the function uncaught and leaves
the declared external resources unchanged. -/
theorem C10_read_failure_propagates (st : ServerState) :
    readExternalResources st ReadOutcome.readError = (st, true) := rfl

/-- C2: for every request carrying a non-empty `Origin` header whose value
is not the literal string `"null"`, after the middleware runs that origin
is a member of the allowed-origin set and the response carries
`Access-Control-Allow-Origin: *` and the fixed
`Access-Control-Allow-Headers` list. -/
theorem C2_cors_origin_recorded (st : ServerState) (req : Request) (res : Response)
    (o : String) (h1 : req.origin = some o) (h2 : o ≠ "") (h3 : o ≠ "null") :
    o ∈ (cacheRedirect st req res).1.allowedOrigins ∧
    getHeader (cacheRedirect st req res).2.1 "Access-Control-Allow-Origin" = some "*" ∧
    getHeader (cacheRedirect st req res).2.1 "Access-Control-Allow-Headers"
      = some "Origin, X-Requested-With, Content-Type, Accept" := by
  have hc : ((req.origin != none) && (req.origin != some "null")) = true := by
    simp [h1, h3]
  unfold cacheRedirect
  cases hI : Json.iterate st.declaredExternalResourcesInManifest <;>
  cases hM : (req.method != "GET") <;>
    simp [hc, hM, hI, h1, h3, getHeader_setHeader, mem_setAdd_self]

/-- Witness for C2: a concrete GET request from an external tool origin. -/
theorem C2_cors_origin_recorded_witness :
    "https://tool.example" ∈
      (cacheRedirect initialState ⟨"GET", some "https://tool.example"⟩ ⟨[]⟩).1.allowedOrigins ∧
    getHeader (cacheRedirect initialState ⟨"GET", some "https://tool.example"⟩ ⟨[]⟩).2.1
        "Access-Control-Allow-Origin" = some "*" ∧
    getHeader (cacheRedirect initialState ⟨"GET", some "https://tool.example"⟩ ⟨[]⟩).2.1
        "Access-Control-Allow-Headers"
      = some "Origin, X-Requested-With, Content-Type, Accept" :=
  C2_cors_origin_recorded initialState ⟨"GET", some "https://tool.example"⟩ ⟨[]⟩
    "https://tool.example" rfl (by decide) (by decide)

/-- C6 counterexample: a request whose `Origin` header is present but equal
to the empty string.  The claim says such a request is not a CORS request,
so the empty string must not be added to the allowed-origin set and no
`Access-Control-Allow-Origin` header may be set; the code tests
`req.headers.origin != undefined`, so it does both. -/
theorem C6_counterexample :
    "" ∈ (cacheRedirect initialState ⟨"GET", some ""⟩ ⟨[]⟩).1.allowedOrigins ∧
    getHeader (cacheRedirect initialState ⟨"GET", some ""⟩ ⟨[]⟩).2.1
        "Access-Control-Allow-Origin" = some "*" := by
  decide

/-- C6 amended: the middleware classifies a request as a CORS request
exactly when the `Origin` header is present, regardless of whether its
value is empty; a present origin other than `"null"` (the empty string
included) is added to the allowed-origin set with
`Access-Control-Allow-Origin: *` set, while a request without an `Origin`
header leaves the set and that header unchanged. -/
theorem C6_amended_present_origin (st : ServerState) (req : Request) (res : Response) :
    (∀ o, req.origin = some o → o ≠ "null" →
      o ∈ (cacheRedirect st req res).1.allowedOrigins ∧
      getHeader (cacheRedirect st req res).2.1 "Access-Control-Allow-Origin" = some "*") ∧
    (req.origin = none →
      (cacheRedirect st req res).1.allowedOrigins = st.allowedOrigins ∧
      getHeader (cacheRedirect st req res).2.1 "Access-Control-Allow-Origin"
        = getHeader res "Access-Control-Allow-Origin") := by
  constructor
  · intro o h1 h3
    have hc : ((req.origin != none) && (req.origin != some "null")) = true := by
      simp [h1, h3]
    unfold cacheRedirect
    cases hI : Json.iterate st.declaredExternalResourcesInManifest <;>
    cases hM : (req.method != "GET") <;>
      simp [hc, hM, hI, h1, h3, getHeader_setHeader, mem_setAdd_self]
  · intro h1
    have hc : ((req.origin != none) && (req.origin != some "null")) = false := by
      simp [h1]
    unfold cacheRedirect
    cases hI : Json.iterate st.declaredExternalResourcesInManifest <;>
    cases hM : (req.method != "GET") <;>
      simp [hc, hM, hI, getHeader_setHeader]

/-- Witness for the amended C6: a present-but-empty `Origin` header is
recorded and acknowledged with `Access-Control-Allow-Origin: *`. -/
theorem C6_amended_present_origin_witness :
    "" ∈ (cacheRedirect initialState ⟨"POST", some ""⟩ ⟨[]⟩).1.allowedOrigins ∧
    getHeader (cacheRedirect initialState ⟨"POST", some ""⟩ ⟨[]⟩).2.1
        "Access-Control-Allow-Origin" = some "*" :=
  (C6_amended_present_origin initialState ⟨"POST", some ""⟩ ⟨[]⟩).1 "" rfl (by decide)

/-- An array-like JSON value in the sense of C4's wording: arrays and
strings (values with a length and indexed elements). -/
def Json.isArrayLike : Json → Bool
  | .arr _ => true
  | .str _ => true
  | _ => false

/-- Replacement value demanded by C4's wording, for comparison with the
code's `extractExternalResources`: the `externalResources` field itself,
or the empty sequence when the field is absent or not array-like. -/
def specExtractExternalResources (json : Json) : Json :=
  match json.lookup "externalResources" with
  | some v => if v.isArrayLike then v else Json.arr []
  | none => Json.arr []

/-- C4 counterexample: a manifest parsing to
`\x7b"externalResources": 5\x7d`.  The field is present but not array-like,
so the claim demands the empty sequence; the code evaluates
`json.externalResources || []` on the truthy value `5` and stores `5`
itself. -/
theorem C4_counterexample :
    (readExternalResources initialState
        (ReadOutcome.parsed (Json.obj [("externalResources", Json.num 5)]))
      ).1.declaredExternalResourcesInManifest = Json.num 5 ∧
    specExtractExternalResources (Json.obj [("externalResources", Json.num 5)])
      = Json.arr [] ∧
    Json.num 5 ≠ Json.arr [] :=
  ⟨rfl, rfl, fun h => Json.noConfusion h⟩

/-- Replacement value under the amended C4: the `externalResources` field
itself whenever it is truthy, and the empty sequence when the field is
absent or falsy (`null`, `false`, `0` or the empty string); a truthy
non-array value is stored as-is. -/
def amendedExtractExternalResources (json : Json) : Json :=
  match json.lookup "externalResources" with
  | some v => if v.truthy then v else Json.arr []
  | none => Json.arr []

/-- C4 amended: for every manifest read that parses to a JSON value other
than `null`, the declared external resources are replaced wholesale with
the `externalResources` field when that value is truthy and with the empty
sequence when the field is absent or falsy, and no error escapes; a
manifest parsing to `null` leaves the previous value in place (the
property access throws inside the `try`). -/
theorem C4_amended_extract (st : ServerState) (json : Json) (h : json ≠ Json.null) :
    (readExternalResources st (ReadOutcome.parsed json)).1.declaredExternalResourcesInManifest
      = amendedExtractExternalResources json ∧
    (readExternalResources st (ReadOutcome.parsed json)).2 = false := by
  cases json
  case null => exact absurd rfl h
  all_goals exact ⟨rfl, rfl⟩

/-- Witness for the amended C4: a manifest declaring one external
resource. -/
theorem C4_amended_extract_witness :
    (readExternalResources initialState
        (ReadOutcome.parsed (Json.obj [("externalResources", Json.arr [Json.str "https://cdn.example"])]))
      ).1.declaredExternalResourcesInManifest
      = amendedExtractExternalResources
          (Json.obj [("externalResources", Json.arr [Json.str "https://cdn.example"])]) ∧
    (readExternalResources initialState
        (ReadOutcome.parsed (Json.obj [("externalResources", Json.arr [Json.str "https://cdn.example"])]))
      ).2 = false :=
  C4_amended_extract initialState
    (Json.obj [("externalResources", Json.arr [Json.str "https://cdn.example"])])
    (fun h => Json.noConfusion h)

/-- C5: a manifest read whose content fails to parse as JSON swallows the
error and leaves the state unchanged, so a subsequent GET still serves a
`content-security-policy` containing each previously declared entry. -/
theorem C5_parse_error_fail_open (st : ServerState) (strs : List String) (s : String)
    (req : Request) (res : Response) (hmem : s ∈ strs) (hm : req.method = "GET")
    (hd : st.declaredExternalResourcesInManifest = Json.arr (strs.map Json.str)) :
    readExternalResources st ReadOutcome.parseError = (st, false) ∧
    ∃ pre post,
      getHeader (cacheRedirect st req res).2.1 "content-security-policy"
        = some ((pre ++ s) ++ post) := by
  refine ⟨rfl, ?_⟩
  obtain ⟨hb, hcsp, hx⟩ := cacheRedirect_GET_csp st req res strs hm hd
  have hmem2 : s ∈ (cacheRedirect st req res).1.allowedOrigins ++ strs :=
    List.mem_append_right _ hmem
  obtain ⟨pre, post, hsplit⟩ := joinSp_mem_split s _ hmem2
  refine ⟨cspHead ++ pre, post, ?_⟩
  rw [hcsp, hsplit]
  simp [String.append_assoc]

/-- Witness for C5: the spec's own scenario, a state whose last good parse
declared `a`, queried by a concrete GET after a failed parse. -/
theorem C5_parse_error_fail_open_witness :
    readExternalResources ⟨Json.arr [Json.str "a"], []⟩ ReadOutcome.parseError
      = (⟨Json.arr [Json.str "a"], []⟩, false) ∧
    ∃ pre post,
      getHeader (cacheRedirect ⟨Json.arr [Json.str "a"], []⟩ ⟨"GET", none⟩ ⟨[]⟩).2.1
          "content-security-policy"
        = some ((pre ++ "a") ++ post) :=
  C5_parse_error_fail_open ⟨Json.arr [Json.str "a"], []⟩ ["a"] "a" ⟨"GET", none⟩ ⟨[]⟩
    (by decide) rfl rfl

/-- C7: for every configuration whose resolved root directory does not
exist, `startServer` throws before the underlying server is started: the
result is an error, so no port is bound and the manifest is never read. -/
theorem C7_missing_root_aborts (env : Env) (partialConfig : PartialConfig)
    (st : ServerState)
    (h : env.existsSync (env.resolve (mergeConfig partialConfig).root) = false) :
    startServer env partialConfig st
      = Except.error
          (StartupError.rootMissing (env.resolve (mergeConfig partialConfig).root)) := by
  unfold startServer
  simp [h]

/-- Witness for C7: a file system on which no path exists. -/
theorem C7_missing_root_aborts_witness :
    startServer ⟨fun p => p, fun _ => false, fun _ => [], ReadOutcome.parseError⟩
        ⟨none, none⟩ initialState
      = Except.error (StartupError.rootMissing "./test/test-files/") :=
  C7_missing_root_aborts ⟨fun p => p, fun _ => false, fun _ => [], ReadOutcome.parseError⟩
    ⟨none, none⟩ initialState rfl

/-- C9: when no file named `mod-manifest.json` is present in the root
directory at startup, no watch is registered and the warning branch leaves
the state untouched, so the declared external resources stay the empty
sequence for the whole process lifetime, whatever file events occur
later. -/
theorem C9_no_manifest_no_watch (files : List String) (initialRead : ReadOutcome)
    (events : List ReadOutcome) (h : files.contains manifestName = false) :
    readExternalResourcesFromManifest files initialRead initialState
      = ((false, initialState), false) ∧
    runWatcher false initialState events = (initialState, false) ∧
    initialState.declaredExternalResourcesInManifest = Json.arr [] := by
  refine ⟨?_, rfl, rfl⟩
  have h2 : manifestName ∉ files := by simpa using h
  unfold readExternalResourcesFromManifest
  simp [h, h2]

/-- Witness for C9: a root directory listing without the manifest file,
followed by file events that would each have changed the state had a watch
existed. -/
theorem C9_no_manifest_no_watch_witness :
    readExternalResourcesFromManifest ["index.html", "main.js"] ReadOutcome.parseError
        initialState
      = ((false, initialState), false) ∧
    runWatcher false initialState
        [ReadOutcome.parsed (Json.obj [("externalResources", Json.arr [Json.str "x"])])]
      = (initialState, false) ∧
    initialState.declaredExternalResourcesInManifest = Json.arr [] :=
  C9_no_manifest_no_watch ["index.html", "main.js"] ReadOutcome.parseError
    [ReadOutcome.parsed (Json.obj [("externalResources", Json.arr [Json.str "x"])])]
    (by decide)
